import Mathlib

/-!
Verification development for `rolling_context.py`, a rolling context window
manager for conversational transcripts.  The Python source is shallowly
embedded: `Message` mirrors the `Message` dataclass (the opaque `raw` payload
is mirrored only through the typed fields plus the `content` field used by
`get_text_content`); `OrphanDetector.find_safe_trim_point`,
`SummaryGenerator.generate` / `_fallback_summary`, and `TrimmingEngine`
(`needs_trim`, `calculate_trim_count`, `trim`, `_create_summary_message`) are
embedded as pure functions.  Filesystem effects (backup creation, saving) and
the remote summarization call are external collaborators: they are modelled by
explicit effect flags and by environment inputs (`TrimEnv`) carrying the fresh
uuid and timestamp of the boundary message, the outcome of the remote request,
and whether the save succeeds.  A `trim` run that raises an uncaught Python
exception is modelled as `none`.
-/

namespace RC

/-- Content block of a message, mirroring the dict blocks scanned by
`Message.from_json` and `get_text_content`: `{"type": "text"}`,
`{"type": "tool_use"}`, `{"type": "tool_result"}`, or anything else. -/
inductive Block where
  | text (s : String)
  | toolUse (id : String)
  | toolResult (tuid : String)
  | other
deriving DecidableEq

/-- The `message.content` field of a record: a plain string, a list of typed
blocks, or any other JSON value (which yields no blocks). -/
inductive MsgContent where
  | str (s : String)
  | blocks (bs : List Block)
  | other
deriving DecidableEq

/-- Mirror of the Python `Message` dataclass: `uuid`, `parent_uuid`,
`msg_type`, `timestamp`, `tool_use_ids`, `tool_result_for`, plus the
`message.content` part of the raw payload (the only part of `raw` the
program reads, via `get_text_content`). -/
structure Message where
  uuid : String
  parent_uuid : Option String
  msg_type : String
  timestamp : String
  tool_use_ids : List String
  tool_result_for : Option String
  content : MsgContent
deriving DecidableEq

/-- `msg.get_text_content()`: the string itself for non-block content, else
the "text" fields of the text blocks joined with newlines; non-list,
non-string content yields `""`. -/
def get_text_content (m : Message) : String :=
  match m.content with
  | .str s => s
  | .blocks bs =>
      String.intercalate "\n" (bs.filterMap
        (fun b => match b with | .text s => some s | _ => none))
  | .other => ""

/-- Python truthiness of an optional string: `None` and `""` are falsy. -/
def pyTruthy : Option String → Bool
  | none => false
  | some s => !s.isEmpty

/-- The ASCII whitespace stripped by Python `str.strip()`
(`" \t\n\r\x0b\x0c"`; the Unicode cases are irrelevant here). -/
def pyIsSpace (c : Char) : Bool :=
  c = ' ' || c = '\t' || c = '\n' || c = '\r' || c = '\x0b' || c = '\x0c'

/-- Python `s.strip()` restricted to ASCII whitespace. -/
def pyStrip (s : String) : String :=
  String.mk (((s.data.dropWhile pyIsSpace).reverse.dropWhile pyIsSpace).reverse)

/-! ## Orphan detection (`OrphanDetector`) -/

/-- `tool_use_to_msg_idx`: the dict built by `OrphanDetector.analyze`, mapping
a tool_use id to the index of the message that emitted it (a later message
overwrites an earlier one, exactly as repeated dict insertion does). -/
def toolUseToMsgIdx (msgs : List Message) (tid : String) : Option Nat :=
  msgs.enum.foldl
    (fun acc p => if tid ∈ p.2.tool_use_ids then some p.1 else acc) none

/-- `tool_result_to_use`: the dict entry for message index `k`, present only
when `msg.tool_result_for` is truthy (`analyze` guards with
`if msg.tool_result_for:`). -/
def resultRef (msgs : List Message) (k : Nat) : Option String :=
  match msgs[k]? with
  | some m =>
      match m.tool_result_for with
      | some s => if s.isEmpty then none else some s
      | none => none
  | none => none

/-- The conflict test of the inner loop of `find_safe_trim_point`: message `k`
is a tool_result whose referenced tool_use lives at an index `< c`. -/
def isConflict (msgs : List Message) (c k : Nat) : Bool :=
  match resultRef msgs k with
  | some tid =>
      match toolUseToMsgIdx msgs tid with
      | some u => decide (u < c)
      | none => false
  | none => false

/-- The inner `for kept_idx in range(target_idx, len(messages))` scan: first
index `k ∈ [c, n)` whose tool_result references a tool_use at an index `< c`. -/
def firstConflict (msgs : List Message) (c : Nat) : Option Nat :=
  (List.range' c (msgs.length - c)).find? (fun k => isConflict msgs c k)

/-- Fuel-indexed version of the `while` loop of `find_safe_trim_point`:
on a conflict at index `k`, the trim point advances to `k + 1` and the scan
restarts. -/
def fstpAux (msgs : List Message) : Nat → Nat → Nat
  | 0, t => t
  | fuel + 1, t =>
      match firstConflict msgs t with
      | none => t
      | some k => fstpAux msgs fuel (k + 1)

/-- `OrphanDetector.find_safe_trim_point(target_idx)`.  The fuel
`msgs.length + 1 - t` is enough for the loop to reach its fixed point
(each conflict advances the index by at least one and it never needs to pass
`msgs.length`); `fstpAux_congr` below shows the result is fuel-independent,
so this equals the Python loop. -/
def find_safe_trim_point (msgs : List Message) (t : Nat) : Nat :=
  fstpAux msgs (msgs.length + 1 - t) t

/-- A cut index `c` is safe: no retained message (index `≥ c`) is a
tool_result whose referenced tool_use resolves (through the analyzer's
mapping) to a message index `< c`. -/
def SafeCut (msgs : List Message) (c : Nat) : Prop :=
  ∀ k tid u, c ≤ k → k < msgs.length → resultRef msgs k = some tid →
    toolUseToMsgIdx msgs tid = some u → c ≤ u

/-! ## Configuration and trim engine data -/

/-- Mirror of the `Config` dataclass fields the trimming and summary logic
reads.  The source stores `trim_fraction` as a Python float in `[0,1)`
(spec §4.2); it is modelled as the exact nonnegative rational
`trim_fraction_num / trim_fraction_den`, and `int(len * trim_fraction)` as
Nat floor division, which agrees with the source whenever the float product
is exact (as in every configured or specified value used below, e.g. `0`,
`0.5`).  `claude_projects_dir`, `projects` and `backup_keep_count` only feed
the external Transcript Store and are not modelled. -/
structure Config where
  api_key : Option String
  api_url : Option String
  api_model : Option String
  max_messages : Nat
  trim_fraction_num : Nat
  trim_fraction_den : Nat
  generate_summaries : Bool
  summary_custom_prompt : Option String

/-- Environment of one non-dry `trim` run: the fresh uuid and timestamp
produced for the boundary message, the outcome of the remote summary request
(`some content` for a successful request/parse, `none` when the request,
status check or response parsing raises), and whether
`TranscriptManager.save` succeeds. -/
structure TrimEnv where
  newUuid : String
  newTimestamp : String
  apiResponse : Option String
  saveOk : Bool

/-- The result dict assembled by `TrimmingEngine.trim`.  `backup_path` is
`true` when the dict's `backup_path` key was set to the backup's location
(the path string itself comes from the filesystem collaborator); `reason`,
`would_trim_from`, `would_trim_to` and `error` are `none` when the
corresponding key is absent or `None`. -/
structure TrimResult where
  original_count : Nat
  trimmed : Bool
  messages_removed : Nat
  final_count : Nat
  backup_path : Bool
  summary_generated : Bool
  reason : Option String
  would_trim_from : Option String
  would_trim_to : Option String
  error : Option String
deriving DecidableEq

/-- Observable side effects of one `trim` call on the collaborators:
whether `create_backup` ran, whether a remote summary was requested
(`generate` reached), and whether `save` was attempted. -/
structure TrimEffects where
  backupCreated : Bool
  summaryRequested : Bool
  saveAttempted : Bool
deriving DecidableEq

/-- No side effects. -/
def noEffects : TrimEffects :=
  { backupCreated := false, summaryRequested := false, saveAttempted := false }

/-- `TrimmingEngine.needs_trim()`: strict threshold comparison
`len(messages) > max_messages`. -/
def needs_trim (cfg : Config) (msgs : List Message) : Bool :=
  cfg.max_messages < msgs.length

/-- `TrimmingEngine.calculate_trim_count()`: `int(len(messages) *
trim_fraction)` with the fraction as an exact rational (see `Config`). -/
def calculate_trim_count (cfg : Config) (msgs : List Message) : Nat :=
  msgs.length * cfg.trim_fraction_num / cfg.trim_fraction_den

/-! ## Summary generator (`SummaryGenerator`) -/

/-- `SummaryGenerator._fallback_summary(messages)`: deterministic synopsis
with message count, first/last date (first 10 characters of the timestamps)
and per-role counts. -/
def fallback_summary (msgs : List Message) : String :=
  let first_ts := match msgs.head? with
    | some m => m.timestamp.take 10
    | none => "unknown"
  let last_ts := match msgs.getLast? with
    | some m => m.timestamp.take 10
    | none => "unknown"
  let user_count := (msgs.filter (fun m => m.msg_type = "user")).length
  let assistant_count :=
    (msgs.filter (fun m => m.msg_type = "assistant")).length
  "[Archived Context: " ++ toString msgs.length ++ " messages from " ++
    first_ts ++ " to " ++ last_ts ++ "]\n\n- User messages: " ++
    toString user_count ++ "\n- Assistant messages: " ++
    toString assistant_count ++
    "\n\nEarlier conversation context has been archived to maintain rolling window.\nFull archive available in .backups folder if needed."

/-- The `if text and text.strip():` test of `generate`: the message
contributes a role-tagged part to the conversation text. -/
def hasSummaryText (m : Message) : Bool :=
  !(get_text_content m).isEmpty && !(pyStrip (get_text_content m)).isEmpty

/-- Names accepted by the `summary_custom_prompt.format(...)` call site
(its keyword arguments). -/
def formatFieldOk (name : String) : Bool :=
  name = "project_name" || name = "num_messages" || name = "conversation_text"

/-- Scanner for Python `str.format` applied at that call site: literal text
with `\x7b\x7b` / `\x7d\x7d` escapes and simple named replacement fields.
Returns `false` when formatting raises (unknown or positional field, stray or
unterminated brace).  Conversion/format specs inside a field are not used by
the repository's configuration surface and are treated as errors. -/
def pyFormatOkAux : List Char → Option (List Char) → Bool
  | [], none => true
  | [], some _ => false
  | '{' :: '{' :: rest, none => pyFormatOkAux rest none
  | '}' :: '}' :: rest, none => pyFormatOkAux rest none
  | '{' :: rest, none => pyFormatOkAux rest (some [])
  | '}' :: _, none => false
  | _ :: rest, none => pyFormatOkAux rest none
  | '}' :: rest, some acc =>
      formatFieldOk (String.mk acc.reverse) && pyFormatOkAux rest none
  | '{' :: _, some _ => false
  | c :: rest, some acc => pyFormatOkAux rest (some (c :: acc))

/-- Whether Python `tmpl.format(project_name=..., num_messages=...,
conversation_text=...)` succeeds. -/
def pyFormatOk (s : String) : Bool := pyFormatOkAux s.data none

/-- Whether the prompt construction step of `generate` succeeds: with a
truthy `summary_custom_prompt` the template is formatted (and a malformed
template raises, outside the `try` block); the default prompt always
builds. -/
def promptBuildOk (cfg : Config) : Bool :=
  match cfg.summary_custom_prompt with
  | some tmpl => pyFormatOk tmpl
  | none => true

/-- `SummaryGenerator.generate(messages)`.  `req` is whether the `requests`
library imported; `apiResponse` is the outcome of the remote call (§6 treats
the transport as an external collaborator).  Returns `none` when the call
raises an exception that is not caught inside `generate` (only the prompt
formatting step can do so); the prompt text itself and the project name are
not observable in any output and are not modelled. -/
def generate (cfg : Config) (req : Bool) (apiResponse : Option String)
    (msgs : List Message) : Option String :=
  if !pyTruthy cfg.api_key || !req then
    some (fallback_summary msgs)
  else if (msgs.filter hasSummaryText).isEmpty then
    some (fallback_summary msgs)
  else if !promptBuildOk cfg then
    none
  else
    match apiResponse with
    | some content => some content
    | none => some (fallback_summary msgs)

/-! ## Trimming engine (`TrimmingEngine`) -/

/-- `TrimmingEngine._create_summary_message(trimmed, summary_text, kept)`:
the synthetic boundary record, parsed back through `Message.from_json`
(its content is a plain string, so it has no tool references).  The
`sessionId`/`cwd` metadata copied into the raw payload is not part of the
typed model. -/
def create_summary_message (env : TrimEnv) (trimmed : List Message)
    (summary_text : String) : Message :=
  let first_ts := match trimmed.head? with
    | some m => m.timestamp.take 10
    | none => "unknown"
  let last_ts := match trimmed.getLast? with
    | some m => m.timestamp.take 10
    | none => "unknown"
  { uuid := env.newUuid
    parent_uuid := none
    msg_type := "user"
    timestamp := env.newTimestamp
    tool_use_ids := []
    tool_result_for := none
    content := .str ("=== CONTEXT ARCHIVE BOUNDARY ===\n" ++
      toString trimmed.length ++ " messages archived (" ++ first_ts ++
      " to " ++ last_ts ++ ")\n\n" ++ summary_text ++
      "\n\n=== CONTINUING CONVERSATION ===") }

/-- The parentUuid fix-up of `trim`: `if msg.parent_uuid and msg.parent_uuid
not in kept_uuids:` repoint the parent to the boundary message. -/
def rewireParent (boundaryUuid : String) (kept_uuids : List String)
    (m : Message) : Message :=
  match m.parent_uuid with
  | some p =>
      if p ≠ "" ∧ p ∉ kept_uuids then { m with parent_uuid := some boundaryUuid }
      else m
  | none => m

/-- The summary step of `trim`: `generate` runs only when summaries are
enabled and the archived partition is nonempty, otherwise `summary_text`
stays `""`. -/
def summaryAttempt (cfg : Config) (req : Bool) (apiResponse : Option String)
    (trimmedMsgs : List Message) : Option String :=
  if cfg.generate_summaries && !trimmedMsgs.isEmpty then
    generate cfg req apiResponse trimmedMsgs
  else some ""

/-- The cut index `trim` uses: the orphan-safe adjustment of the computed
target index. -/
def safeCutOf (cfg : Config) (msgs : List Message) : Nat :=
  find_safe_trim_point msgs (calculate_trim_count cfg msgs)

/-- The retained partition `messages[safe_trim_idx:]` of a trim. -/
def keptOf (cfg : Config) (msgs : List Message) : List Message :=
  msgs.drop (safeCutOf cfg msgs)

/-- `TrimmingEngine.trim(dry_run)`: returns the result dict, the message
sequence held by the transcript manager afterwards, and the effect flags;
`none` models an uncaught exception escaping `trim` (possible only in the
summary prompt step).  In the source the backup is created before that step,
so an aborted run has already written its backup. -/
def trim (cfg : Config) (req : Bool) (env : TrimEnv) (msgs : List Message)
    (dry_run : Bool) : Option (TrimResult × List Message × TrimEffects) :=
  if needs_trim cfg msgs then
    let safe := safeCutOf cfg msgs
    let trimmedMsgs := msgs.take safe
    let keptMsgs := msgs.drop safe
    if dry_run then
      some ({ original_count := msgs.length
              trimmed := false
              messages_removed := trimmedMsgs.length
              final_count := keptMsgs.length
              backup_path := false
              summary_generated := false
              reason := some "dry run"
              would_trim_from := trimmedMsgs.head?.map Message.timestamp
              would_trim_to := trimmedMsgs.getLast?.map Message.timestamp
              error := none },
            msgs, noEffects)
    else
      match summaryAttempt cfg req env.apiResponse trimmedMsgs with
      | none => none
      | some summary_text =>
        let summary_msg := create_summary_message env trimmedMsgs summary_text
        let kept_uuids := keptMsgs.map Message.uuid
        let new_msgs :=
          summary_msg :: keptMsgs.map (rewireParent env.newUuid kept_uuids)
        let requested := cfg.generate_summaries && !trimmedMsgs.isEmpty
        some (if env.saveOk then
                { original_count := msgs.length
                  trimmed := true
                  messages_removed := trimmedMsgs.length
                  final_count := new_msgs.length
                  backup_path := true
                  summary_generated := requested
                  reason := none
                  would_trim_from := none
                  would_trim_to := none
                  error := none }
              else
                { original_count := msgs.length
                  trimmed := false
                  messages_removed := trimmedMsgs.length
                  final_count := 0
                  backup_path := true
                  summary_generated := requested
                  reason := none
                  would_trim_from := none
                  would_trim_to := none
                  error := some "Failed to save" },
              new_msgs,
              { backupCreated := true, summaryRequested := requested,
                saveAttempted := true })
  else
    some ({ original_count := msgs.length
            trimmed := false
            messages_removed := 0
            final_count := msgs.length
            backup_path := false
            summary_generated := false
            reason := some "under threshold"
            would_trim_from := none
            would_trim_to := none
            error := none },
          msgs, noEffects)

/-! ## Concrete instances

Small transcripts and configurations used to instantiate the theorems below,
built the way `Message.from_json` builds records from transcript lines. -/

/-- A message as parsed from a transcript line: uuid, parentUuid, the
tool_use ids and tool_result reference extracted from its content blocks,
and a plain-string text content. -/
def mkMsg (u : String) (p : Option String) (tus : List String)
    (trf : Option String) : Message :=
  { uuid := u, parent_uuid := p, msg_type := "user",
    timestamp := "2025-02-01T00:00:00.000Z", tool_use_ids := tus,
    tool_result_for := trf, content := .str "hello" }

/-- Four messages where message 1 answers a tool invocation of message 0. -/
def msgsA : List Message :=
  [mkMsg "a0" none ["ta"] none,
   mkMsg "a1" (some "a0") [] (some "ta"),
   mkMsg "a2" (some "a1") [] none,
   mkMsg "a3" (some "a2") [] none]

/-- Three plain messages forming a parent chain. -/
def msgs3 : List Message :=
  [mkMsg "u0" none [] none,
   mkMsg "u1" (some "u0") [] none,
   mkMsg "u2" (some "u1") [] none]

/-- Three messages whose last one carries an empty-string parentUuid, as a
transcript line `{"parentUuid": "", ...}` produces. -/
def msgs2 : List Message :=
  [mkMsg "u0" none [] none,
   mkMsg "u1" (some "u0") [] none,
   mkMsg "u2" (some "") [] none]

/-- Ten messages where message 5 is a tool_result answering a tool_use
emitted by message 3 (the §8 scenario); the retained block 6..9 chains
within itself. -/
def msgs4 : List Message :=
  [mkMsg "u0" none [] none,
   mkMsg "u1" (some "u0") [] none,
   mkMsg "u2" (some "u1") [] none,
   mkMsg "u3" (some "u2") ["t1"] none,
   mkMsg "u4" (some "u3") [] none,
   mkMsg "u5" (some "u4") [] (some "t1"),
   mkMsg "u6" none [] none,
   mkMsg "u7" (some "u6") [] none,
   mkMsg "u8" (some "u7") [] none,
   mkMsg "u9" (some "u8") [] none]

/-- Configuration of the §8 scenario: threshold 5, fraction 0.5, summaries
enabled with no credential (so the deterministic fallback is embedded). -/
def cfg4 : Config :=
  { api_key := none, api_url := none, api_model := none, max_messages := 5,
    trim_fraction_num := 1, trim_fraction_den := 2, generate_summaries := true,
    summary_custom_prompt := none }

/-- Threshold 2, fraction 0.5. -/
def cfg2 : Config :=
  { api_key := none, api_url := none, api_model := none, max_messages := 2,
    trim_fraction_num := 1, trim_fraction_den := 2, generate_summaries := true,
    summary_custom_prompt := none }

/-- Threshold 2, fraction 0: the computed cut is index 0. -/
def cfg3 : Config :=
  { api_key := none, api_url := none, api_model := none, max_messages := 2,
    trim_fraction_num := 0, trim_fraction_den := 1, generate_summaries := true,
    summary_custom_prompt := none }

/-- A remote summary configuration whose custom prompt template references a
field name the `format` call site does not supply. -/
def cfg5 : Config :=
  { api_key := some "key", api_url := some "https://example.invalid/api",
    api_model := some "some-model", max_messages := 1,
    trim_fraction_num := 1, trim_fraction_den := 2, generate_summaries := true,
    summary_custom_prompt := some "Summarize for {oops}: {conversation_text}" }

/-- Boundary-message environment with a successful save. -/
def envB : TrimEnv :=
  { newUuid := "B", newTimestamp := "2025-02-02T00:00:00.000Z",
    apiResponse := none, saveOk := true }

theorem isConflict_true_elim {msgs : List Message} {c k : Nat}
    (h : isConflict msgs c k = true) :
    ∃ tid u, resultRef msgs k = some tid ∧ toolUseToMsgIdx msgs tid = some u ∧
      u < c := by
  unfold isConflict at h
  split at h
  · rename_i tid hr
    split at h
    · rename_i u hu
      exact ⟨tid, u, hr, hu, of_decide_eq_true h⟩
    · exact absurd h (by simp)
  · exact absurd h (by simp)

theorem isConflict_false_elim {msgs : List Message} {c k : Nat} {tid : String}
    {u : Nat} (h : isConflict msgs c k = false)
    (hr : resultRef msgs k = some tid)
    (hu : toolUseToMsgIdx msgs tid = some u) : c ≤ u := by
  unfold isConflict at h
  split at h
  · rename_i tid' hr'
    rw [hr] at hr'
    cases hr'
    split at h
    · rename_i u' hu'
      rw [hu] at hu'
      cases hu'
      exact Nat.le_of_not_lt (of_decide_eq_false h)
    · rename_i hu'
      rw [hu] at hu'
      cases hu'
  · rename_i hr'
    rw [hr] at hr'
    cases hr'

theorem isConflict_of_safeCut {msgs : List Message} {c k : Nat}
    (hs : SafeCut msgs c) (hck : c ≤ k) (hk : k < msgs.length) :
    isConflict msgs c k = false := by
  cases hb : isConflict msgs c k
  · rfl
  · obtain ⟨tid, u, hr, hu, hlt⟩ := isConflict_true_elim hb
    exact absurd (hs k tid u hck hk hr hu) (Nat.not_le_of_lt hlt)

theorem firstConflict_some {msgs : List Message} {t k : Nat}
    (h : firstConflict msgs t = some k) :
    t ≤ k ∧ k < msgs.length ∧ isConflict msgs t k = true := by
  have hmem := List.mem_of_find?_eq_some h
  have hp := List.find?_some h
  have hb := List.mem_range'_1.1 hmem
  exact ⟨hb.1, by omega, hp⟩

theorem firstConflict_none {msgs : List Message} {t : Nat}
    (h : firstConflict msgs t = none) :
    ∀ k, t ≤ k → k < msgs.length → isConflict msgs t k = false := by
  intro k hk1 hk2
  have := List.find?_eq_none.1 h k (List.mem_range'_1.2 ⟨hk1, by omega⟩)
  exact Bool.not_eq_true _ ▸ (by simpa using this)

theorem firstConflict_none_of_safeCut {msgs : List Message} {c : Nat}
    (hs : SafeCut msgs c) : firstConflict msgs c = none := by
  apply List.find?_eq_none.2
  intro k hk
  have hb := List.mem_range'_1.1 hk
  simp [isConflict_of_safeCut hs hb.1 (by omega)]

theorem fstpAux_step (msgs : List Message) :
    ∀ fuel t, msgs.length - t ≤ fuel →
      fstpAux msgs (fuel + 1) t = fstpAux msgs fuel t := by
  intro fuel
  induction fuel with
  | zero =>
      intro t ht
      show (match firstConflict msgs t with
            | none => t
            | some k => fstpAux msgs 0 (k + 1)) = t
      rcases hc : firstConflict msgs t with _ | k
      · rfl
      · obtain ⟨h1, h2, _⟩ := firstConflict_some hc
        omega
  | succ fuel ih =>
      intro t ht
      show (match firstConflict msgs t with
            | none => t
            | some k => fstpAux msgs (fuel + 1) (k + 1)) =
           (match firstConflict msgs t with
            | none => t
            | some k => fstpAux msgs fuel (k + 1))
      rcases hc : firstConflict msgs t with _ | k
      · rfl
      · obtain ⟨h1, h2, _⟩ := firstConflict_some hc
        exact ih (k + 1) (by omega)

theorem fstpAux_congr (msgs : List Message) :
    ∀ f1 f2 t, msgs.length - t ≤ f1 → msgs.length - t ≤ f2 →
      fstpAux msgs f1 t = fstpAux msgs f2 t := by
  have hadd : ∀ j fuel t, msgs.length - t ≤ fuel →
      fstpAux msgs (fuel + j) t = fstpAux msgs fuel t := by
    intro j
    induction j with
    | zero => intro fuel t _; rfl
    | succ j ih =>
        intro fuel t ht
        have : fuel + (j + 1) = (fuel + j) + 1 := by omega
        rw [this, fstpAux_step msgs (fuel + j) t (by omega), ih fuel t ht]
  intro f1 f2 t h1 h2
  have e1 : f1 = (msgs.length - t) + (f1 - (msgs.length - t)) := by omega
  have e2 : f2 = (msgs.length - t) + (f2 - (msgs.length - t)) := by omega
  rw [e1, hadd _ _ _ (Nat.le_refl _), e2, hadd _ _ _ (Nat.le_refl _)]

/-- Unfolding: when the scan finds no conflict the loop returns `t`. -/
theorem fstp_of_none {msgs : List Message} {t : Nat}
    (h : firstConflict msgs t = none) : find_safe_trim_point msgs t = t := by
  unfold find_safe_trim_point
  rcases hf : msgs.length + 1 - t with _ | fuel
  · rfl
  · show (match firstConflict msgs t with
          | none => t
          | some k => fstpAux msgs fuel (k + 1)) = t
    rw [h]

/-- Unfolding: on the first conflict `k` the loop restarts from `k + 1`. -/
theorem fstp_of_some {msgs : List Message} {t k : Nat}
    (h : firstConflict msgs t = some k) :
    find_safe_trim_point msgs t = find_safe_trim_point msgs (k + 1) := by
  obtain ⟨h1, h2, _⟩ := firstConflict_some h
  unfold find_safe_trim_point
  rcases hf : msgs.length + 1 - t with _ | fuel
  · omega
  · show (match firstConflict msgs t with
          | none => t
          | some k => fstpAux msgs fuel (k + 1)) = _
    rw [h]
    exact fstpAux_congr msgs fuel (msgs.length + 1 - (k + 1)) (k + 1)
      (by omega) (by omega)

/-- Main loop invariant of `find_safe_trim_point`: the result is at least the
target, within bounds, safe, and every index skipped over was unsafe. -/
theorem fstp_spec (msgs : List Message) :
    ∀ d t, msgs.length - t < d →
      t ≤ find_safe_trim_point msgs t ∧
      (t ≤ msgs.length → find_safe_trim_point msgs t ≤ msgs.length) ∧
      SafeCut msgs (find_safe_trim_point msgs t) ∧
      (∀ c, t ≤ c → c < find_safe_trim_point msgs t → ¬ SafeCut msgs c) := by
  intro d
  induction d with
  | zero => intro t ht; exact absurd ht (Nat.not_lt_zero _)
  | succ d ih =>
      intro t ht
      rcases hc : firstConflict msgs t with _ | k
      · rw [fstp_of_none hc]
        refine ⟨Nat.le_refl _, fun h => h, ?_, ?_⟩
        · intro k tid u hck hk hr hu
          exact isConflict_false_elim (firstConflict_none hc k hck hk) hr hu
        · intro c h1 h2; omega
      · obtain ⟨hk1, hk2, hkc⟩ := firstConflict_some hc
        rw [fstp_of_some hc]
        obtain ⟨i1, i2, i3, i4⟩ := ih (k + 1) (by omega)
        refine ⟨by omega, fun _ => i2 (by omega), i3, ?_⟩
        intro c hc1 hc2 hsafe
        by_cases hsplit : k + 1 ≤ c
        · exact i4 c hsplit hc2 hsafe
        · obtain ⟨tid, u, hr, hu, hlt⟩ := isConflict_true_elim hkc
          have := hsafe k tid u (by omega) hk2 hr hu
          omega

/-! ## Claims -/

/-- C1: for every message sequence and every target `t ≤ n`,
`find_safe_trim_point t` returns the smallest index `c ≥ t` such that no
retained message (index `≥ c`) is a tool_result whose referenced tool_use
resolves to a message index `< c`; in particular `c ≤ n`, every index in
`[t, c)` is unsafe, and `c = n` when no smaller safe cut exists. -/
theorem c1_find_safe_trim_point_minimal_safe (msgs : List Message) (t : Nat)
    (ht : t ≤ msgs.length) :
    t ≤ find_safe_trim_point msgs t ∧
    find_safe_trim_point msgs t ≤ msgs.length ∧
    SafeCut msgs (find_safe_trim_point msgs t) ∧
    (∀ c, t ≤ c → c < find_safe_trim_point msgs t → ¬ SafeCut msgs c) ∧
    ((∀ c, t ≤ c → c < msgs.length → ¬ SafeCut msgs c) →
      find_safe_trim_point msgs t = msgs.length) := by
  obtain ⟨h1, h2, h3, h4⟩ := fstp_spec msgs (msgs.length - t + 1) t (by omega)
  refine ⟨h1, h2 ht, h3, h4, ?_⟩
  intro hall
  have hle := h2 ht
  rcases Nat.lt_or_ge (find_safe_trim_point msgs t) msgs.length with hlt | hge
  · exact absurd h3 (hall _ h1 hlt)
  · omega

/-- Witness for C1 at the four-message transcript `msgsA` and target 1:
the cut advances to 2 (past the tool_result of message 1). -/
theorem c1_witness :
    1 ≤ msgsA.length ∧
    (1 ≤ find_safe_trim_point msgsA 1 ∧
     find_safe_trim_point msgsA 1 ≤ msgsA.length ∧
     SafeCut msgsA (find_safe_trim_point msgsA 1) ∧
     (∀ c, 1 ≤ c → c < find_safe_trim_point msgsA 1 → ¬ SafeCut msgsA c) ∧
     ((∀ c, 1 ≤ c → c < msgsA.length → ¬ SafeCut msgsA c) →
       find_safe_trim_point msgsA 1 = msgsA.length)) :=
  ⟨by decide, c1_find_safe_trim_point_minimal_safe msgsA 1 (by decide)⟩

/-- C9: `find_safe_trim_point` is idempotent — applying it to its own
result returns that result unchanged. -/
theorem c9_find_safe_trim_point_idempotent (msgs : List Message) (t : Nat) :
    find_safe_trim_point msgs (find_safe_trim_point msgs t) =
      find_safe_trim_point msgs t := by
  obtain ⟨-, -, h3, -⟩ := fstp_spec msgs (msgs.length - t + 1) t (by omega)
  exact fstp_of_none (firstConflict_none_of_safeCut h3)

set_option maxRecDepth 80000 in
/-- C4: on 10 messages with `max_messages = 5` and `trim_fraction = 0.5`,
where message 5 answers a tool invocation of message 3, `trim` computes
target index 5, advances the safe cut to 6, and produces the boundary
message followed by `messages[6:10]` — 5 messages in total, with
`messages_removed = 6`. -/
theorem c4_scenario_ten_messages :
    calculate_trim_count cfg4 msgs4 = 5 ∧
    find_safe_trim_point msgs4 5 = 6 ∧
    trim cfg4 true envB msgs4 false =
      some ({ original_count := 10, trimmed := true, messages_removed := 6,
              final_count := 5, backup_path := true, summary_generated := true,
              reason := none, would_trim_from := none, would_trim_to := none,
              error := none },
            create_summary_message envB (msgs4.take 6)
              (fallback_summary (msgs4.take 6)) :: msgs4.drop 6,
            { backupCreated := true, summaryRequested := true,
              saveAttempted := true }) := by
  decide

/-- C7: `needs_trim` is the strict comparison `len(messages) >
max_messages`, and trimming a sequence at or under the threshold is a
no-op: no effects, the sequence unchanged, the original count reported as
final count, reason "under threshold". -/
theorem c7_needs_trim_strict_and_noop (cfg : Config) (msgs : List Message) :
    (needs_trim cfg msgs = true ↔ cfg.max_messages < msgs.length) ∧
    (msgs.length ≤ cfg.max_messages → ∀ req env dry,
      trim cfg req env msgs dry =
        some ({ original_count := msgs.length, trimmed := false,
                messages_removed := 0, final_count := msgs.length,
                backup_path := false, summary_generated := false,
                reason := some "under threshold", would_trim_from := none,
                would_trim_to := none, error := none },
              msgs, noEffects)) := by
  constructor
  · simp [needs_trim]
  · intro hle req env dry
    have hN : needs_trim cfg msgs = false := by
      unfold needs_trim
      exact decide_eq_false (by omega)
    unfold trim
    rw [hN]
    rfl

/-- Witness for C7 on a two-message transcript under a threshold of 2. -/
theorem c7_witness :
    (needs_trim cfg2 (msgs2.take 2) = true ↔
      cfg2.max_messages < (msgs2.take 2).length) ∧
    trim cfg2 true envB (msgs2.take 2) false =
      some ({ original_count := 2, trimmed := false,
              messages_removed := 0, final_count := 2,
              backup_path := false, summary_generated := false,
              reason := some "under threshold", would_trim_from := none,
              would_trim_to := none, error := none },
            msgs2.take 2, noEffects) :=
  ⟨(c7_needs_trim_strict_and_noop cfg2 (msgs2.take 2)).1,
   (c7_needs_trim_strict_and_noop cfg2 (msgs2.take 2)).2 (by decide)
     true envB false⟩

/-- C6: on an over-threshold sequence, `trim(dry_run=True)` leaves the
sequence untouched and triggers no backup, no summary request and no save,
while reporting the would-be removed/retained counts and the timestamps of
the first and last would-be archived messages. -/
theorem c6_dry_run_no_mutation (cfg : Config) (req : Bool) (env : TrimEnv)
    (msgs : List Message) (hneeds : needs_trim cfg msgs = true) :
    trim cfg req env msgs true =
      some ({ original_count := msgs.length, trimmed := false,
              messages_removed := (msgs.take (safeCutOf cfg msgs)).length,
              final_count := (msgs.drop (safeCutOf cfg msgs)).length,
              backup_path := false, summary_generated := false,
              reason := some "dry run",
              would_trim_from :=
                (msgs.take (safeCutOf cfg msgs)).head?.map Message.timestamp,
              would_trim_to :=
                (msgs.take (safeCutOf cfg msgs)).getLast?.map Message.timestamp,
              error := none },
            msgs, noEffects) := by
  unfold trim
  rw [hneeds]
  rfl

set_option maxRecDepth 80000 in
/-- Witness for C6 on the ten-message scenario transcript. -/
theorem c6_witness :
    needs_trim cfg4 msgs4 = true ∧
    trim cfg4 true envB msgs4 true =
      some ({ original_count := 10, trimmed := false,
              messages_removed := 6, final_count := 4,
              backup_path := false, summary_generated := false,
              reason := some "dry run",
              would_trim_from := some "2025-02-01T00:00:00.000Z",
              would_trim_to := some "2025-02-01T00:00:00.000Z",
              error := none },
            msgs4, noEffects) :=
  ⟨by decide, by
    rw [c6_dry_run_no_mutation cfg4 true envB msgs4 (by decide)]
    decide⟩

theorem trim_real_some (cfg : Config) (req : Bool) (env : TrimEnv)
    (msgs : List Message) (s : String) (hneeds : needs_trim cfg msgs = true)
    (hsum : summaryAttempt cfg req env.apiResponse
      (msgs.take (safeCutOf cfg msgs)) = some s) :
    trim cfg req env msgs false =
      some (if env.saveOk then
              { original_count := msgs.length
                trimmed := true
                messages_removed := (msgs.take (safeCutOf cfg msgs)).length
                final_count := 1 + (keptOf cfg msgs).length
                backup_path := true
                summary_generated := cfg.generate_summaries &&
                  !(msgs.take (safeCutOf cfg msgs)).isEmpty
                reason := none
                would_trim_from := none
                would_trim_to := none
                error := none }
            else
              { original_count := msgs.length
                trimmed := false
                messages_removed := (msgs.take (safeCutOf cfg msgs)).length
                final_count := 0
                backup_path := true
                summary_generated := cfg.generate_summaries &&
                  !(msgs.take (safeCutOf cfg msgs)).isEmpty
                reason := none
                would_trim_from := none
                would_trim_to := none
                error := some "Failed to save" },
            create_summary_message env (msgs.take (safeCutOf cfg msgs)) s ::
              (keptOf cfg msgs).map
                (rewireParent env.newUuid ((keptOf cfg msgs).map Message.uuid)),
            { backupCreated := true
              summaryRequested := cfg.generate_summaries &&
                !(msgs.take (safeCutOf cfg msgs)).isEmpty
              saveAttempted := true }) := by
  unfold trim keptOf
  rw [hneeds]
  simp only [if_true, Bool.false_eq_true, if_false, hsum, List.length_map,
    List.length_cons]
  congr 1
  ext1
  · split <;> simp [Nat.add_comm]
  · rfl

theorem trim_real_none (cfg : Config) (req : Bool) (env : TrimEnv)
    (msgs : List Message) (hneeds : needs_trim cfg msgs = true)
    (hsum : summaryAttempt cfg req env.apiResponse
      (msgs.take (safeCutOf cfg msgs)) = none) :
    trim cfg req env msgs false = none := by
  unfold trim
  rw [hneeds]
  simp only [if_true, Bool.false_eq_true, if_false, hsum]

/-- C10: for an over-threshold sequence, the `final_count` reported by a dry
run is the number of retained messages `n - c`, exactly one less than the
`final_count` a successful real trim of the same sequence reports (it also
counts the inserted boundary message). -/
theorem c10_dry_vs_real_final_count (cfg : Config) (req : Bool) (env : TrimEnv)
    (msgs : List Message) (hneeds : needs_trim cfg msgs = true)
    (hsave : env.saveOk = true)
    (hdone : trim cfg req env msgs false ≠ none) :
    (trim cfg req env msgs true).map (fun o => o.1.final_count) =
      some (msgs.length - safeCutOf cfg msgs) ∧
    (trim cfg req env msgs false).map (fun o => o.1.final_count) =
      some (msgs.length - safeCutOf cfg msgs + 1) := by
  constructor
  · unfold trim
    rw [hneeds]
    simp [List.length_drop]
  · rcases hsum : summaryAttempt cfg req env.apiResponse
        (msgs.take (safeCutOf cfg msgs)) with _ | s
    · exact absurd (trim_real_none cfg req env msgs hneeds hsum) hdone
    · rw [trim_real_some cfg req env msgs s hneeds hsum, hsave]
      simp [keptOf, List.length_drop, Nat.add_comm]

set_option maxRecDepth 80000 in
/-- Witness for C10 on the ten-message scenario: dry run reports 4,
the real trim reports 5. -/
theorem c10_witness :
    needs_trim cfg4 msgs4 = true ∧ envB.saveOk = true ∧
    trim cfg4 true envB msgs4 false ≠ none ∧
    ((trim cfg4 true envB msgs4 true).map (fun o => o.1.final_count) =
       some (msgs4.length - safeCutOf cfg4 msgs4) ∧
     (trim cfg4 true envB msgs4 false).map (fun o => o.1.final_count) =
       some (msgs4.length - safeCutOf cfg4 msgs4 + 1)) :=
  ⟨by decide, by decide, by decide,
   c10_dry_vs_real_final_count cfg4 true envB msgs4 (by decide) (by decide)
     (by decide)⟩

theorem rewireParent_fields (b : String) (us : List String) (m : Message) :
    (rewireParent b us m).uuid = m.uuid ∧
    (rewireParent b us m).msg_type = m.msg_type ∧
    (rewireParent b us m).timestamp = m.timestamp ∧
    (rewireParent b us m).tool_use_ids = m.tool_use_ids ∧
    (rewireParent b us m).tool_result_for = m.tool_result_for ∧
    (rewireParent b us m).content = m.content := by
  unfold rewireParent
  split
  · split
    · exact ⟨rfl, rfl, rfl, rfl, rfl, rfl⟩
    · exact ⟨rfl, rfl, rfl, rfl, rfl, rfl⟩
  · exact ⟨rfl, rfl, rfl, rfl, rfl, rfl⟩

theorem rewireParent_parent (b : String) (us : List String) (m : Message) :
    (rewireParent b us m).parent_uuid =
      (match m.parent_uuid with
       | some p => if p ≠ "" ∧ p ∉ us then some b else some p
       | none => none) := by
  unfold rewireParent
  split
  · rename_i p heq
    by_cases hc : p ≠ "" ∧ p ∉ us
    · simp [hc]
    · simp [hc, heq]
  · rename_i heq
    exact heq

/-- C2 is false as stated: in `msgs2` the retained message "u2" carries the
(reachable) parentUuid `""`, which resolves to no retained message's id,
yet after the non-dry trim its parent_id is still `""` and not the boundary
id "B" — the source's `if msg.parent_uuid and ...` truthiness test skips
empty parent ids. -/
theorem c2_counterexample :
    needs_trim cfg2 msgs2 = true ∧
    (trim cfg2 true envB msgs2 false).map
        (fun o => o.2.1.map Message.parent_uuid) =
      some [none, some "B", some ""] ∧
    ((keptOf cfg2 msgs2).map Message.uuid).contains "" = false ∧
    envB.newUuid = "B" := by decide

/-- C2 (amended): after a completed non-dry-run trim of an over-threshold
sequence, the new sequence is the boundary message (parent null, uuid the
fresh one) followed by exactly the retained messages; a retained message's
parent_id is rewritten to the boundary id iff it is a non-empty string that
matches no retained message's id (a null or empty parent_id is left
unchanged), and parent_id is the only field that changes. -/
theorem c2_amended_trim_shape (cfg : Config) (req : Bool) (env : TrimEnv)
    (msgs : List Message) (hneeds : needs_trim cfg msgs = true)
    (hdone : trim cfg req env msgs false ≠ none) :
    (trim cfg req env msgs false).map (fun o => o.2.1.length) =
      some (1 + (keptOf cfg msgs).length) ∧
    (trim cfg req env msgs false).map
        (fun o => o.2.1.head?.map Message.parent_uuid) = some (some none) ∧
    (trim cfg req env msgs false).map
        (fun o => o.2.1.head?.map Message.uuid) = some (some env.newUuid) ∧
    (trim cfg req env msgs false).map (fun o => o.2.1.tail) =
      some ((keptOf cfg msgs).map
        (rewireParent env.newUuid ((keptOf cfg msgs).map Message.uuid))) ∧
    (∀ m ∈ keptOf cfg msgs,
      ((rewireParent env.newUuid ((keptOf cfg msgs).map Message.uuid) m).uuid
          = m.uuid ∧
       (rewireParent env.newUuid ((keptOf cfg msgs).map Message.uuid) m).msg_type
          = m.msg_type ∧
       (rewireParent env.newUuid ((keptOf cfg msgs).map Message.uuid) m).timestamp
          = m.timestamp ∧
       (rewireParent env.newUuid ((keptOf cfg msgs).map Message.uuid) m).tool_use_ids
          = m.tool_use_ids ∧
       (rewireParent env.newUuid ((keptOf cfg msgs).map Message.uuid) m).tool_result_for
          = m.tool_result_for ∧
       (rewireParent env.newUuid ((keptOf cfg msgs).map Message.uuid) m).content
          = m.content) ∧
      (rewireParent env.newUuid ((keptOf cfg msgs).map Message.uuid) m).parent_uuid
        = (match m.parent_uuid with
           | some p =>
               if p ≠ "" ∧ p ∉ (keptOf cfg msgs).map Message.uuid then
                 some env.newUuid
               else some p
           | none => none)) := by
  rcases hsum : summaryAttempt cfg req env.apiResponse
      (msgs.take (safeCutOf cfg msgs)) with _ | s
  · exact absurd (trim_real_none cfg req env msgs hneeds hsum) hdone
  · rw [trim_real_some cfg req env msgs s hneeds hsum]
    refine ⟨by simp [Nat.add_comm], by simp [create_summary_message], ?_,
      by simp, ?_⟩
    · simp [create_summary_message]
    · intro m _
      exact ⟨rewireParent_fields env.newUuid
               ((keptOf cfg msgs).map Message.uuid) m,
             rewireParent_parent env.newUuid
               ((keptOf cfg msgs).map Message.uuid) m⟩

/-- Witness for C2 (amended) on `msgs2`: the retained block has two
messages, so the new sequence has three. -/
theorem c2_amended_witness :
    needs_trim cfg2 msgs2 = true ∧
    trim cfg2 true envB msgs2 false ≠ none ∧
    (trim cfg2 true envB msgs2 false).map (fun o => o.2.1.length) =
      some (1 + (keptOf cfg2 msgs2).length) :=
  ⟨by decide, by decide,
   (c2_amended_trim_shape cfg2 true envB msgs2 (by decide) (by decide)).1⟩

/-- C3 is false as stated: with fraction 0 the computed safe cut is 0 and
the archived set is empty, yet the non-dry-run trim is not a no-op — it
creates a backup and inserts a boundary message, growing the sequence from
3 to 4 messages. -/
theorem c3_counterexample :
    needs_trim cfg3 msgs3 = true ∧
    safeCutOf cfg3 msgs3 = 0 ∧
    (trim cfg3 true envB msgs3 false).map
        (fun o => (o.2.2.backupCreated, o.2.1.length)) = some (true, 4) := by
  decide

/-- C3 (amended): when the computed safe cut of an over-threshold sequence
is 0, the non-dry-run trim still proceeds: a backup is created and a save
attempted, summary generation is skipped (empty archived set, so the
summary text is `""`), and a boundary message reporting 0 archived messages
is inserted in front of all original messages, so the sequence grows to
`n + 1` — which a successful save reports as the final count. -/
theorem c3_amended_empty_archive_still_trims (cfg : Config) (req : Bool)
    (env : TrimEnv) (msgs : List Message)
    (hneeds : needs_trim cfg msgs = true) (hcut : safeCutOf cfg msgs = 0) :
    (trim cfg req env msgs false).map (fun o => o.2.2) =
      some { backupCreated := true, summaryRequested := false,
             saveAttempted := true } ∧
    (trim cfg req env msgs false).map (fun o => o.2.1) =
      some (create_summary_message env [] "" ::
        msgs.map (rewireParent env.newUuid (msgs.map Message.uuid))) ∧
    (trim cfg req env msgs false).map (fun o => o.2.1.length) =
      some (msgs.length + 1) ∧
    (env.saveOk = true →
      (trim cfg req env msgs false).map (fun o => o.1.final_count) =
        some (msgs.length + 1)) := by
  have hsum : summaryAttempt cfg req env.apiResponse
      (msgs.take (safeCutOf cfg msgs)) = some "" := by
    rw [hcut]
    simp [summaryAttempt]
  have hkept : keptOf cfg msgs = msgs := by
    unfold keptOf
    rw [hcut]
    simp
  rw [trim_real_some cfg req env msgs "" hneeds hsum, hcut, hkept]
  refine ⟨by simp, by simp, by simp [Nat.add_comm], ?_⟩
  intro hs
  rw [hs]
  simp [Nat.add_comm]

/-- Witness for C3 (amended) at `cfg3`/`msgs3`. -/
theorem c3_amended_witness :
    needs_trim cfg3 msgs3 = true ∧ safeCutOf cfg3 msgs3 = 0 ∧
    (trim cfg3 true envB msgs3 false).map (fun o => o.2.2) =
      some { backupCreated := true, summaryRequested := false,
             saveAttempted := true } :=
  ⟨by decide, by decide,
   (c3_amended_empty_archive_still_trims cfg3 true envB msgs3 (by decide)
     (by decide)).1⟩

theorem generate_ne_none (cfg : Config) (req : Bool) (a : Option String)
    (ms : List Message) (h : promptBuildOk cfg = true) :
    generate cfg req a ms ≠ none := by
  unfold generate
  split_ifs with h1 h2 h3
  · simp
  · simp
  · rw [h] at h3
    simp at h3
  · cases a <;> simp

theorem summaryAttempt_ne_none (cfg : Config) (req : Bool) (a : Option String)
    (tm : List Message) (h : promptBuildOk cfg = true) :
    summaryAttempt cfg req a tm ≠ none := by
  unfold summaryAttempt
  split_ifs with h1
  · exact generate_ne_none cfg req a tm h
  · simp

/-- C5 is false in its "never fatal" clause: with a custom summary prompt
template referencing an unsupported field, the `format` call raises outside
the `try` block, `generate` propagates the exception, and the whole trim
operation aborts. -/
theorem c5_counterexample :
    promptBuildOk cfg5 = false ∧
    generate cfg5 true none (msgs3.take 1) = none ∧
    trim cfg5 true envB msgs3 false = none := by decide

/-- C5 (amended): `generate` returns the deterministic fallback synopsis —
message count, first/last archived date (first 10 characters of the
timestamps) and user/assistant counts — whenever the credential is missing
or empty, the request library is unavailable, the archived set yields no
text, or the request fails after a successful prompt construction; and as
long as the prompt construction succeeds (in particular whenever no custom
prompt template is configured), no summary error aborts `trim`.  (The claim's
unconditional "no error in summary generation is ever fatal" is refuted by
`c5_counterexample`.) -/
theorem c5_amended_fallback_and_fatality (cfg : Config) (req : Bool)
    (apiR : Option String) (msgs : List Message)
    (h : pyTruthy cfg.api_key = false ∨ req = false ∨
         msgs.filter hasSummaryText = [] ∨
         (apiR = none ∧ promptBuildOk cfg = true)) :
    generate cfg req apiR msgs = some (fallback_summary msgs) ∧
    fallback_summary msgs =
      "[Archived Context: " ++ toString msgs.length ++ " messages from " ++
        ((msgs.head?.map (fun m => m.timestamp.take 10)).getD "unknown") ++
        " to " ++
        ((msgs.getLast?.map (fun m => m.timestamp.take 10)).getD "unknown") ++
        "]\n\n- User messages: " ++
        toString (msgs.filter (fun m => m.msg_type = "user")).length ++
        "\n- Assistant messages: " ++
        toString (msgs.filter (fun m => m.msg_type = "assistant")).length ++
        "\n\nEarlier conversation context has been archived to maintain rolling window.\nFull archive available in .backups folder if needed." ∧
    (promptBuildOk cfg = true →
      ∀ env msgs2 dry, trim cfg req env msgs2 dry ≠ none) := by
  refine ⟨?_, ?_, ?_⟩
  · unfold generate
    split_ifs with h1 h2 h3
    · rfl
    · rfl
    · exfalso
      rcases h with hk | hr | hf | ⟨ha, hp⟩
      · simp [hk] at h1
      · simp [hr] at h1
      · rw [hf] at h2
        simp at h2
      · rw [hp] at h3
        simp at h3
    · rcases ha : apiR with _ | content
      · rfl
      · exfalso
        rcases h with hk | hr | hf | ⟨ha', hp⟩
        · simp [hk] at h1
        · simp [hr] at h1
        · rw [hf] at h2
          simp at h2
        · rw [ha] at ha'
          cases ha'
  · unfold fallback_summary
    rcases hh : msgs.head? with _ | m <;> rcases hl : msgs.getLast? with _ | m2
      <;> simp
  · intro hpb env msgs2 dry
    cases hN : needs_trim cfg msgs2
    · unfold trim
      rw [hN]
      simp
    · cases dry
      · rcases hS : summaryAttempt cfg req env.apiResponse
            (msgs2.take (safeCutOf cfg msgs2)) with _ | s
        · exact absurd hS (summaryAttempt_ne_none cfg req env.apiResponse _ hpb)
        · rw [trim_real_some cfg req env msgs2 s hN hS]
          simp
      · unfold trim
        rw [hN]
        simp

/-- Witness for C5 (amended): with no credential configured the fallback is
returned, and with the default prompt a real trim never aborts. -/
theorem c5_witness :
    pyTruthy cfg4.api_key = false ∧
    generate cfg4 true none msgs3 = some (fallback_summary msgs3) ∧
    trim cfg4 true envB msgs4 false ≠ none :=
  ⟨by decide,
   (c5_amended_fallback_and_fatality cfg4 true none msgs3
     (Or.inl (by decide))).1,
   (c5_amended_fallback_and_fatality cfg4 true none msgs3
     (Or.inl (by decide))).2.2 (by decide) envB msgs4 false⟩

end RC
